import Mathlib

set_option linter.unusedVariables false

/-!
Shallow embedding of `libcloud/storage/drivers/google_json.py`
(Google Cloud Storage JSON-API driver) and verification of its
specification.

The module under study is a thin client binding: a connection subclass
(`GCSConnection`) and a driver (`GoogleStorageDriver`) with listing,
get, create, delete and download operations plus two pure mapping
families (JSON item → Container, JSON item → Object).

Embedding choices:
* Parsed JSON response bodies and Python values flowing through the
  driver are modelled by the inductive `Json`. An empty HTTP body is
  parsed by the response class to the empty string, hence `Json.str ""`.
* Python dicts are association lists with unique keys assumed by
  lookup-first-match.
* Exceptions are modelled by `Except PyErr`; each operation is a state
  function `DriverState → Except PyErr α × DriverState` so the request
  log and connection state survive an error.
* The transport is a script: a list of pre-arranged `HttpResponse`s
  consumed one per request, while every request sent is appended to a
  log `sent`. The pieces of the repository that live outside the file
  under study (the generic Google base connection, the response class,
  the `Container`/`Object` value classes of `libcloud.storage.base`)
  are modelled from the spec where noted.
-/

/-- A parsed JSON value / generic Python value as it flows through the
driver. `obj` is a Python dict as an association list (keys unique),
`str ""` is what the response class yields for an empty HTTP body. -/
inductive Json where
  | null : Json
  | str : String → Json
  | num : Int → Json
  | obj : List (String × Json) → Json
  | arr : List Json → Json

/-- Python exceptions that can escape the driver code, plus the typed
provider error raised by the transport collaborator on a non-success
HTTP status (modelled from the spec, §6/§7: generic HTTP-status →
typed-error mapping) and a marker for an exhausted response script. -/
inductive PyErr where
  | keyError : String → PyErr
  | typeError : PyErr
  | attributeError : String → PyErr
  | nameError : String → PyErr
  | providerError : Nat → PyErr
  | scriptExhausted : PyErr

/-- First-match lookup in a Python dict rendered as an association list. -/
def lookupKey : List (String × Json) → String → Option Json
  | [], _ => none
  | (k, v) :: rest, key => if k == key then some v else lookupKey rest key

namespace Json

/-- Key lookup on a JSON value: `some v` when the value is a dict
binding the key, `none` otherwise. -/
def lookupField : Json → String → Option Json
  | .obj fields, key => lookupKey fields key
  | _, _ => none

/-- Python subscript `item[key]`: `KeyError` on a dict missing the key,
`TypeError` when the value is not subscriptable by a string key. -/
def getItem : Json → String → Except PyErr Json
  | .obj fields, key =>
      match lookupKey fields key with
      | some v => Except.ok v
      | none => Except.error (PyErr.keyError key)
  | _, _ => Except.error PyErr.typeError

/-- Python `item.get(key, default)` on a dict; on a non-dict the real
code would raise `AttributeError`, a case no driver path reaches. -/
def getDefault (j : Json) (key : String) (dflt : Json) : Json :=
  match j.lookupField key with
  | some v => v
  | none => dflt

/-- Python `key in value` for the dict case (the only case the module
exercises: the pagination block only inspects parsed JSON dicts). -/
def containsKey (j : Json) (key : String) : Bool :=
  (j.lookupField key).isSome

/-- Python `value == ""`, the test `delete_container`/`delete_object`
apply to the parsed response body. -/
def pyEqEmptyStr : Json → Bool
  | .str s => s == ""
  | _ => false

/-- Number of fields of a dict (0 for non-dicts); used only to compare
a computed `extra` mapping against the field set the spec prescribes. -/
def fieldCount : Json → Nat
  | .obj fields => fields.length
  | _ => 0

end Json

/-- Modelled from the spec (§3): `libcloud.storage.base.Container` is a
plain value record `{name, extra, driver}`; the non-owning driver
back-reference is dropped (it is always the constructing driver). The
`name` keeps the raw JSON value the code passes, as Python does. -/
structure Container where
  name : Json
  extra : Json

/-- Modelled from the spec (§3): `libcloud.storage.base.Object` record
`{name, size, hash, extra, meta_data, container, driver}`; the driver
back-reference is dropped. `container` is optional because
`_to_object` declares `container=None` as its default. -/
structure StorageObject where
  name : Json
  size : Json
  hash : Json
  extra : Json
  meta_data : Json
  container : Option Container

/-- A Python object of a class without `__bool__`/`__len__` is always
truthy; `Container` instances are such objects, so the
`if container:` test in `get_container` always takes the then-branch. -/
def containerTruthy (_ : Container) : Bool :=
  true

/-- Python `obj is None` for the value `_to_object` returns: it is an
`Object` instance, never `None`, so `if obj is not None:` in
`get_object` always succeeds. -/
def objectIsNone (_ : StorageObject) : Bool :=
  false

/-- Embeds `GoogleStorageDriver._to_container`: build a `Container`
from one JSON item. `item['name']` raises `KeyError` when the field is
absent; the whole item passes into `extra` verbatim. -/
def toContainer (item : Json) : Except PyErr Container :=
  match item.getItem "name" with
  | Except.error e => Except.error e
  | Except.ok n => Except.ok ⟨n, item⟩

/-- Embeds `GoogleStorageDriver._to_object`: `meta_data` is
`item.get('metadata', \x7b\x7d)` (evaluated first, never raising), then the
`Object` constructor call evaluates `item['name']`, `item['size']`,
`item['md5Hash']` in that order, raising `KeyError` at the first
missing field; the whole item passes into `extra` verbatim. -/
def toObject (item : Json) (container : Option Container) : Except PyErr StorageObject :=
  match item.getItem "name" with
  | Except.error e => Except.error e
  | Except.ok n =>
    match item.getItem "size" with
    | Except.error e => Except.error e
    | Except.ok sz =>
      match item.getItem "md5Hash" with
      | Except.error e => Except.error e
      | Except.ok h =>
        Except.ok ⟨n, sz, h, item, item.getDefault "metadata" (Json.obj []), container⟩

/-- Embeds the loop of `GoogleStorageDriver._to_containers`: map each
item of the list, the first exception aborting the loop. -/
def toContainerList : List Json → Except PyErr (List Container)
  | [] => Except.ok []
  | item :: rest =>
    match toContainer item with
    | Except.error e => Except.error e
    | Except.ok c =>
      match toContainerList rest with
      | Except.error e => Except.error e
      | Except.ok cs => Except.ok (c :: cs)

/-- Embeds `GoogleStorageDriver._to_containers`: iterate
`data['items']` and map each item; subscripting a non-dict or a
missing `items` key raises, iterating a non-list is modelled as
`TypeError`. -/
def toContainers (data : Json) : Except PyErr (List Container) :=
  match data.getItem "items" with
  | Except.error e => Except.error e
  | Except.ok (Json.arr items) => toContainerList items
  | Except.ok _ => Except.error PyErr.typeError

/-- Embeds the loop of `GoogleStorageDriver._to_objects`. -/
def toObjectList (container : Container) : List Json → Except PyErr (List StorageObject)
  | [] => Except.ok []
  | item :: rest =>
    match toObject item (some container) with
    | Except.error e => Except.error e
    | Except.ok o =>
      match toObjectList container rest with
      | Except.error e => Except.error e
      | Except.ok os => Except.ok (o :: os)

/-- Embeds `GoogleStorageDriver._to_objects`. -/
def toObjects (data : Json) (container : Container) : Except PyErr (List StorageObject) :=
  match data.getItem "items" with
  | Except.error e => Except.error e
  | Except.ok (Json.arr items) => toObjectList container items
  | Except.ok _ => Except.error PyErr.typeError

/-- Python `'%s' % value` interpolation as used to build request
paths. Every driver path interpolates container/object names, which
are strings in every reachable run; the remaining cases record
Python's stringification shape without reproducing `repr` in full. -/
def pyFormat : Json → String
  | Json.str s => s
  | Json.num n => toString n
  | Json.null => "None"
  | Json.obj _ => "<dict>"
  | Json.arr _ => "<list>"

/-- One request as it goes on the wire: HTTP method, path (relative to
the connection's request path prefix), query parameters after the
`pre_connect_hook` merge, and the JSON body (`Json.null` when absent). -/
structure SentRequest where
  method : String
  path : String
  params : List (String × Json)
  data : Json

/-- One scripted transport response: HTTP status and the parsed body
(`Json.str ""` for an empty body). -/
structure HttpResponse where
  status : Nat
  object : Json

/-- Modelled from the spec (§6): the response class's success
predicate — a 2xx status is success, anything else is mapped by the
collaborator to a typed error. -/
def isSuccess (status : Nat) : Bool :=
  200 ≤ status && status ≤ 299

/-- Python `dict.update`: each binding of `upd` overwrites the binding
of `base` with the same key or is appended. -/
def setKey (l : List (String × Json)) (k : String) (v : Json) : List (String × Json) :=
  if l.any (fun p => p.1 == k) then
    l.map (fun p => if p.1 == k then (k, v) else p)
  else
    l ++ [(k, v)]

/-- Python `base.update(upd)` over dicts as association lists. -/
def dictUpdate (base upd : List (String × Json)) : List (String × Json) :=
  upd.foldl (fun acc p => setKey acc p.1 p.2) base

/-- Python `del l[k]` on a dict. -/
def delKey (l : List (String × Json)) (k : String) : List (String × Json) :=
  l.filter (fun p => (p.1 == k) = false)

/-- Embeds `GCSConnection.pre_connect_hook`: when the connection's
`gcs_params` bag is truthy (a non-empty dict), merge it into the
outgoing query parameters; the base class's own hook only manages
authentication headers (out of scope per spec §1) and leaves the
query parameters alone. -/
def preConnectHook (gcs : Option (List (String × Json)))
    (params : List (String × Json)) : List (String × Json) :=
  match gcs with
  | none => params
  | some bag => if bag.isEmpty then params else dictUpdate params bag

/-- Embeds the post-processing in `GCSConnection.request`: when
`gcs_params` is truthy, the code first mutates the bag (storing
`response.object['nextPageToken']` under `pageToken`, or deleting a
stale `pageToken`) and then unconditionally clears the slot to `None`;
the mutated dict is unreachable afterwards because no other reference
to it exists anywhere in the module, so the slot result is all that
matters. When the bag is falsy (`None` or empty) nothing happens. -/
def requestPostProcess (gcs : Option (List (String × Json)))
    (respObj : Json) : Option (List (String × Json)) :=
  match gcs with
  | none => none
  | some bag =>
    if bag.isEmpty then some bag
    else
      let _mutated :=
        match respObj.lookupField "nextPageToken" with
        | some tok => setKey bag "pageToken" tok
        | none => if (lookupKey bag "pageToken").isSome then delKey bag "pageToken" else bag
      none

/-- The mutable world a driver call threads: the connection's
pagination bag `gcs` (`None` after `GCSConnection.__init__`), the
remaining scripted transport responses, the log of requests sent so
far, and a local filesystem (path → content) for `download_object`. -/
structure DriverState where
  gcs : Option (List (String × Json))
  responses : List HttpResponse
  sent : List SentRequest
  fs : List (String × String)

/-- A driver computation: state in, `Except` result and state out (the
state survives an exception, so the request log of a failed call
remains observable). -/
def DriverM (α : Type) : Type :=
  DriverState → Except PyErr α × DriverState

/-- Sequencing of driver computations (Python statement order with
exception propagation). -/
def andThen {α β : Type} (m : DriverM α) (f : α → DriverM β) : DriverM β :=
  fun s =>
    match m s with
    | (Except.ok a, s₁) => f a s₁
    | (Except.error e, s₁) => (Except.error e, s₁)

/-- A computation returning a value without touching the state. -/
def retM {α : Type} (a : α) : DriverM α :=
  fun s => (Except.ok a, s)

/-- A computation raising an exception. -/
def throwM {α : Type} (e : PyErr) : DriverM α :=
  fun s => (Except.error e, s)

/-- Lift a pure `Except` computation (the mapping functions). -/
def liftE {α : Type} : Except PyErr α → DriverM α
  | Except.ok a => retM a
  | Except.error e => throwM e

/-- Embeds `GCSConnection.request` over the scripted transport: pop the
next scripted response, send the request with the parameters produced
by `pre_connect_hook`, and log it. A non-success status raises the
typed provider error from inside the base request (modelled from the
spec, §6/§7), skipping the pagination post-processing; on success the
post-processing runs and the parsed body is returned. -/
def connRequest (path method : String) (params : List (String × Json))
    (data : Json) : DriverM Json :=
  fun s =>
    match s.responses with
    | [] => (Except.error PyErr.scriptExhausted, s)
    | resp :: rest =>
      let finalParams := preConnectHook s.gcs params
      let sent := s.sent ++ [⟨method, path, finalParams, data⟩]
      if isSuccess resp.status then
        (Except.ok resp.object,
         ⟨requestPostProcess s.gcs resp.object, rest, sent, s.fs⟩)
      else
        (Except.error (PyErr.providerError resp.status),
         ⟨s.gcs, rest, sent, s.fs⟩)

/-- The driver's construction-time configuration: only the project id
(`self.project`), which may be `None`. -/
structure GoogleStorageDriver where
  project : Json

namespace GoogleStorageDriver

/-- Embeds `GoogleStorageDriver.iterate_containers`: one `GET /b` with
query `{project}`, then map the body through `_to_containers`. -/
def iterate_containers (d : GoogleStorageDriver) : DriverM (List Container) :=
  andThen (connRequest "/b" "GET" [("project", d.project)] Json.null)
    (fun body => liftE (toContainers body))

/-- Embeds `GoogleStorageDriver.iterate_container_objects`: one
`GET /b/{container.name}/o` with no query parameters, then
`_to_objects`. -/
def iterate_container_objects (d : GoogleStorageDriver) (container : Container) :
    DriverM (List StorageObject) :=
  andThen (connRequest ("/b/" ++ pyFormat container.name ++ "/o") "GET" [] Json.null)
    (fun body => liftE (toObjects body container))

/-- Embeds `GoogleStorageDriver.get_container`: `GET /b/{name}`, map
through `_to_container`; the `else` branch raising
`ContainerDoesNotExistError` is dead code twice over — `_to_container`
never returns a falsy value, and the exception class is not imported
by the module, so reaching the `raise` would itself raise `NameError`. -/
def get_container (d : GoogleStorageDriver) (container_name : String) :
    DriverM Container :=
  andThen (connRequest ("/b/" ++ container_name) "GET" [] Json.null)
    (fun body =>
      andThen (liftE (toContainer body))
        (fun container =>
          if containerTruthy container then retM container
          else throwM (PyErr.nameError "ContainerDoesNotExistError")))

/-- Embeds `GoogleStorageDriver.get_object`: resolve the container via
`get_container`, then `GET /b/{container_name}/o/{object_name}`, then
`_to_object` with the resolved container; the `else` branch raising
`ObjectDoesNotExistError` is dead code for the same two reasons as in
`get_container`. -/
def get_object (d : GoogleStorageDriver) (container_name object_name : String) :
    DriverM StorageObject :=
  andThen (d.get_container container_name)
    (fun container =>
      andThen (connRequest ("/b/" ++ container_name ++ "/o/" ++ object_name)
          "GET" [] Json.null)
        (fun body =>
          andThen (liftE (toObject body (some container)))
            (fun obj =>
              if objectIsNone obj then
                throwM (PyErr.nameError "ObjectDoesNotExistError")
              else retM obj)))

/-- Python attribute access `obj.container.name`: `AttributeError` when
`container` is `None`. -/
def containerNameOf (obj : StorageObject) : Except PyErr Json :=
  match obj.container with
  | some c => Except.ok c.name
  | none => Except.error (PyErr.attributeError "name")

/-- Embeds `GoogleStorageDriver.delete_object`: note the request path
is built from the format string `'b/%s/o/%s'`, with no leading slash;
returns `True` exactly when the parsed body equals `""`. -/
def delete_object (d : GoogleStorageDriver) (obj : StorageObject) : DriverM Bool :=
  andThen (liftE (containerNameOf obj))
    (fun container_name =>
      andThen (connRequest ("b/" ++ pyFormat container_name ++ "/o/" ++ pyFormat obj.name)
          "DELETE" [] Json.null)
        (fun body => retM (body.pyEqEmptyStr)))

/-- Embeds `GoogleStorageDriver.create_container`: `POST /b` with query
`{project}` and body `{name}`, then `_to_container` on the response. -/
def create_container (d : GoogleStorageDriver) (container_name : String) :
    DriverM Container :=
  andThen (connRequest "/b" "POST" [("project", d.project)]
      (Json.obj [("name", Json.str container_name)]))
    (fun body => liftE (toContainer body))

/-- Embeds `GoogleStorageDriver.delete_container`: `DELETE
/b/{container.name}`; returns `True` exactly when the parsed body
equals `""`. -/
def delete_container (d : GoogleStorageDriver) (container : Container) : DriverM Bool :=
  andThen (connRequest ("/b/" ++ pyFormat container.name) "DELETE" [] Json.null)
    (fun body => retM (body.pyEqEmptyStr))

/-- Embeds `GoogleStorageDriver.download_object`: the body of the
Python method is exactly a `GET /b/{container.name}/o/{object.name}`
with query `{alt: "media"}` followed by nothing — no write to
`destination_path`, no check of `overwrite_existing`, no cleanup for
`delete_on_failure`; the method implicitly returns `None`. -/
def download_object (d : GoogleStorageDriver) (obj : StorageObject)
    (destination_path : String) (overwrite_existing delete_on_failure : Bool) :
    DriverM Unit :=
  andThen (liftE (containerNameOf obj))
    (fun container_name =>
      andThen (connRequest ("/b/" ++ pyFormat container_name ++ "/o/" ++ pyFormat obj.name)
          "GET" [("alt", Json.str "media")] Json.null)
        (fun _body => retM ()))

end GoogleStorageDriver

/-- The driver state right after construction: `GCSConnection.__init__`
sets `self.gcs_params = None`, no request has been sent, and the
transport script and local filesystem are as given. -/
def initState (responses : List HttpResponse) (fs : List (String × String)) :
    DriverState :=
  ⟨none, responses, [], fs⟩

/-!
Theorems. Each claim of the specification is settled below; helper
lemmas shared between several claims come first where needed.
-/

/-- C1: the specification requires a listing operation on a two-page
result (page 1 carrying `nextPageToken: "T"`) to issue exactly two
transport requests, the second with `pageToken=T`. The code never
assigns the connection's `gcs_params` bag and never loops: evaluated on
a two-page script, `iterate_container_objects` issues exactly one
request (with no `pageToken` parameter), leaves the second scripted
page unconsumed, and returns only the first page's objects. -/
theorem iterate_container_objects_single_request_on_two_page_script :
    GoogleStorageDriver.iterate_container_objects ⟨Json.str "proj"⟩
      ⟨Json.str "bucket", Json.obj []⟩
      (initState
        [⟨200, Json.obj [("items", Json.arr [Json.obj [("name", Json.str "o1"),
            ("size", Json.str "3"), ("md5Hash", Json.str "h1")]]),
          ("nextPageToken", Json.str "T")]⟩,
         ⟨200, Json.obj [("items", Json.arr [Json.obj [("name", Json.str "o2"),
            ("size", Json.str "4"), ("md5Hash", Json.str "h2")]])]⟩] [])
      = (Except.ok [⟨Json.str "o1", Json.str "3", Json.str "h1",
            Json.obj [("name", Json.str "o1"), ("size", Json.str "3"),
              ("md5Hash", Json.str "h1")],
            Json.obj [], some ⟨Json.str "bucket", Json.obj []⟩⟩],
         ⟨none,
          [⟨200, Json.obj [("items", Json.arr [Json.obj [("name", Json.str "o2"),
              ("size", Json.str "4"), ("md5Hash", Json.str "h2")]])]⟩],
          [⟨"GET", "/b/bucket/o", [], Json.null⟩],
          []⟩) :=
  rfl

/-- C2: the specification requires `download_object` to write the
response body to `destination_path`, to fail without touching the
network when `overwrite_existing` is false and the destination exists,
and to clean up on failure. The code's method body is only the GET
request: evaluated with an already-existing destination file and
`overwrite_existing = false`, it still issues the network request,
returns without error, and leaves the filesystem untouched (the
response body `"DATA"` is written nowhere). -/
theorem download_object_ignores_flags_and_writes_nothing :
    GoogleStorageDriver.download_object ⟨Json.str "proj"⟩
      ⟨Json.str "file.txt", Json.str "5", Json.str "h", Json.obj [], Json.obj [],
        some ⟨Json.str "bucket", Json.obj []⟩⟩
      "/tmp/dest" false true
      (initState [⟨200, Json.str "DATA"⟩] [("/tmp/dest", "OLD")])
      = (Except.ok (),
         ⟨none, [],
          [⟨"GET", "/b/bucket/o/file.txt", [("alt", Json.str "media")], Json.null⟩],
          [("/tmp/dest", "OLD")]⟩) :=
  rfl

/-- C3: the specification requires `get_container` to raise the typed
`ContainerNotFound` failure itself when the response carries no such
record. Evaluated on a success response whose body is the record-free
dict, the code instead escapes with `KeyError 'name'` from
`_to_container` — the typed raise is dead code (and the exception
class is not even imported by the module). -/
theorem get_container_missing_record_raises_keyError :
    GoogleStorageDriver.get_container ⟨Json.str "proj"⟩ "missing"
      (initState [⟨200, Json.obj []⟩] [])
      = (Except.error (PyErr.keyError "name"),
         ⟨none, [], [⟨"GET", "/b/missing", [], Json.null⟩], []⟩) :=
  rfl

/-- C9: the specification requires `delete_object` to issue its DELETE
to the path `/b/{container.name}/o/{object.name}`. The code builds the
path from the format string `'b/%s/o/%s'`: evaluated on a concrete
object, the request goes to `b/bucket/o/obj1` — no leading slash,
unlike every other request path in the module — while the
empty-body-means-true contract does hold. -/
theorem delete_object_path_lacks_leading_slash :
    (GoogleStorageDriver.delete_object ⟨Json.str "proj"⟩
        ⟨Json.str "obj1", Json.str "5", Json.str "h", Json.obj [], Json.obj [],
          some ⟨Json.str "bucket", Json.obj []⟩⟩
        (initState [⟨204, Json.str ""⟩] [])
      = (Except.ok true,
         ⟨none, [], [⟨"DELETE", "b/bucket/o/obj1", [], Json.null⟩], []⟩))
    ∧ "b/bucket/o/obj1" ≠ "/b/bucket/o/obj1" :=
  ⟨rfl, by decide⟩

/-- Helper: a value other than the empty Python string compares unequal
to `""`. -/
theorem pyEqEmptyStr_eq_false {j : Json} (h : j ≠ Json.str "") :
    j.pyEqEmptyStr = false := by
  cases j with
  | str s =>
    simp only [ne_eq, Json.str.injEq] at h
    simpa [Json.pyEqEmptyStr] using h
  | null => rfl
  | num n => rfl
  | obj fields => rfl
  | arr elems => rfl

/-- Helper: subscripting succeeds exactly where dict lookup does. -/
theorem getItem_of_lookupField {j : Json} {k : String} {v : Json}
    (h : j.lookupField k = some v) : j.getItem k = Except.ok v := by
  cases j with
  | obj fields =>
    simp only [Json.lookupField] at h
    simp [Json.getItem, h]
  | null => exact absurd h (by simp [Json.lookupField])
  | str s => exact absurd h (by simp [Json.lookupField])
  | num n => exact absurd h (by simp [Json.lookupField])
  | arr elems => exact absurd h (by simp [Json.lookupField])

/-- C4: `delete_container` issues its DELETE and then answers from the
parsed body alone — `true` exactly on the empty body, `false` on any
other body of a success response; a non-success status surfaces as the
collaborator's typed provider error (modelled from the spec) instead
of a boolean. -/
theorem delete_container_empty_body_contract
    (d : GoogleStorageDriver) (c : Container) (s : DriverState)
    (resp : HttpResponse) (rest : List HttpResponse)
    (hresp : s.responses = resp :: rest) :
    (isSuccess resp.status = true → resp.object = Json.str "" →
      (d.delete_container c s).1 = Except.ok true)
    ∧ (isSuccess resp.status = true → resp.object ≠ Json.str "" →
      (d.delete_container c s).1 = Except.ok false)
    ∧ (isSuccess resp.status = false →
      (d.delete_container c s).1 = Except.error (PyErr.providerError resp.status)) :=
  by
  refine ⟨?_, ?_, ?_⟩
  · intro hok hbody
    simp [GoogleStorageDriver.delete_container, andThen, connRequest, retM,
      hresp, hok, hbody, Json.pyEqEmptyStr]
  · intro hok hbody
    simp [GoogleStorageDriver.delete_container, andThen, connRequest, retM,
      hresp, hok, pyEqEmptyStr_eq_false hbody]
  · intro hbad
    simp [GoogleStorageDriver.delete_container, andThen, connRequest, retM,
      hresp, hbad]

/-- Witness for C4: the three branches of the contract evaluated on
concrete transport responses — status 204 with empty body gives
`true`, status 200 with body `\x7b\x7d` gives `false`, status 409 raises the
typed provider error. -/
theorem delete_container_empty_body_contract_witness :
    ((GoogleStorageDriver.delete_container ⟨Json.str "p"⟩ ⟨Json.str "b", Json.obj []⟩
        (initState [⟨204, Json.str ""⟩] [])).1 = Except.ok true)
    ∧ ((GoogleStorageDriver.delete_container ⟨Json.str "p"⟩ ⟨Json.str "b", Json.obj []⟩
        (initState [⟨200, Json.obj []⟩] [])).1 = Except.ok false)
    ∧ ((GoogleStorageDriver.delete_container ⟨Json.str "p"⟩ ⟨Json.str "b", Json.obj []⟩
        (initState [⟨409, Json.obj []⟩] [])).1
          = Except.error (PyErr.providerError 409)) :=
  ⟨(delete_container_empty_body_contract ⟨Json.str "p"⟩ ⟨Json.str "b", Json.obj []⟩
      (initState [⟨204, Json.str ""⟩] []) ⟨204, Json.str ""⟩ [] rfl).1 rfl rfl,
   (delete_container_empty_body_contract ⟨Json.str "p"⟩ ⟨Json.str "b", Json.obj []⟩
      (initState [⟨200, Json.obj []⟩] []) ⟨200, Json.obj []⟩ [] rfl).2.1 rfl
      (fun h => Json.noConfusion h),
   (delete_container_empty_body_contract ⟨Json.str "p"⟩ ⟨Json.str "b", Json.obj []⟩
      (initState [⟨409, Json.obj []⟩] []) ⟨409, Json.obj []⟩ [] rfl).2.2 rfl⟩

/-- C7: the item→Container mapping: a record without a `name` field
makes `_to_container` fail loudly with the module's malformed-response
failure (the `KeyError` escaping `item['name']`) and no `Container`
value — partial or otherwise — is produced; a record with a `name`
field maps to a `Container` whose `extra` is the whole record
verbatim, so every other field passes through verbatim. -/
theorem toContainer_requires_name (fields : List (String × Json)) :
    (lookupKey fields "name" = none →
      toContainer (Json.obj fields) = Except.error (PyErr.keyError "name"))
    ∧ (∀ n, lookupKey fields "name" = some n →
      toContainer (Json.obj fields) = Except.ok ⟨n, Json.obj fields⟩) :=
  by
  constructor
  · intro hmiss
    simp [toContainer, Json.getItem, hmiss]
  · intro n hname
    simp [toContainer, Json.getItem, hname]

/-- Witness for C7: a nameless record fails with `KeyError 'name'`; a
record with a name and one extra field keeps the whole record in
`extra`. -/
theorem toContainer_requires_name_witness :
    (toContainer (Json.obj [("location", Json.str "EU")])
      = Except.error (PyErr.keyError "name"))
    ∧ (toContainer (Json.obj [("name", Json.str "b1"), ("location", Json.str "EU")])
      = Except.ok ⟨Json.str "b1",
          Json.obj [("name", Json.str "b1"), ("location", Json.str "EU")]⟩) :=
  ⟨(toContainer_requires_name [("location", Json.str "EU")]).1 rfl,
   (toContainer_requires_name [("name", Json.str "b1"), ("location", Json.str "EU")]).2
     (Json.str "b1") rfl⟩

/-- The `extra` mapping as the claim words it for objects: exactly the
fields of the item that are not separately modeled (`name`, `size`,
`md5Hash`, `metadata`). Written from the claim's words, to be compared
with the `extra` the code computes. -/
def specObjectExtra (item : Json) : Json :=
  match item with
  | Json.obj fields =>
      Json.obj (fields.filter (fun p =>
        p.1 != "name" && p.1 != "size" && p.1 != "md5Hash" && p.1 != "metadata"))
  | j => j

/-- C6 counterexample: on an item with the three required fields and
one provider-specific field, the code makes `extra` the whole
four-field item — it contains `name`, a separately modeled field — so
`extra` is not "exactly those fields not separately modeled", which
here would be the single field `foo`. -/
theorem toObject_extra_keeps_modeled_fields :
    ((toObject (Json.obj [("name", Json.str "a"), ("size", Json.str "5"),
        ("md5Hash", Json.str "h"), ("foo", Json.str "bar")]) none).map
        StorageObject.extra
      = Except.ok (Json.obj [("name", Json.str "a"), ("size", Json.str "5"),
          ("md5Hash", Json.str "h"), ("foo", Json.str "bar")]))
    ∧ (specObjectExtra (Json.obj [("name", Json.str "a"), ("size", Json.str "5"),
        ("md5Hash", Json.str "h"), ("foo", Json.str "bar")])
      = Json.obj [("foo", Json.str "bar")])
    ∧ Json.fieldCount (Json.obj [("name", Json.str "a"), ("size", Json.str "5"),
        ("md5Hash", Json.str "h"), ("foo", Json.str "bar")])
      ≠ Json.fieldCount (Json.obj [("foo", Json.str "bar")]) :=
  ⟨rfl, rfl, by decide⟩

/-- C6 (amended): the item→Object mapping requires `name`, `size` and
`md5Hash`, failing loudly with a `KeyError` at the first missing one
and never producing a partial record; the `metadata` sub-object,
defaulting to the empty dict when absent, becomes `meta_data`; and the
entire item — the separately modeled fields included — passes through
verbatim into `extra`. -/
theorem toObject_characterization (fields : List (String × Json))
    (cont : Option Container) :
    (lookupKey fields "name" = none →
      toObject (Json.obj fields) cont = Except.error (PyErr.keyError "name"))
    ∧ (∀ n, lookupKey fields "name" = some n → lookupKey fields "size" = none →
      toObject (Json.obj fields) cont = Except.error (PyErr.keyError "size"))
    ∧ (∀ n sz, lookupKey fields "name" = some n →
      lookupKey fields "size" = some sz → lookupKey fields "md5Hash" = none →
      toObject (Json.obj fields) cont = Except.error (PyErr.keyError "md5Hash"))
    ∧ (∀ n sz h, lookupKey fields "name" = some n →
      lookupKey fields "size" = some sz → lookupKey fields "md5Hash" = some h →
      toObject (Json.obj fields) cont
        = Except.ok ⟨n, sz, h, Json.obj fields,
            (Json.obj fields).getDefault "metadata" (Json.obj []), cont⟩) :=
  by
  refine ⟨?_, ?_, ?_, ?_⟩
  · intro hname
    simp [toObject, Json.getItem, hname]
  · intro n hname hsize
    simp [toObject, Json.getItem, hname, hsize]
  · intro n sz hname hsize hmd5
    simp [toObject, Json.getItem, hname, hsize, hmd5]
  · intro n sz h hname hsize hmd5
    simp [toObject, Json.getItem, hname, hsize, hmd5]

/-- Witness for C6: the amended characterization evaluated on a full
item carrying a `metadata` sub-object and a provider field, and on an
item whose `size` is missing. -/
theorem toObject_characterization_witness :
    (toObject (Json.obj [("name", Json.str "a"), ("size", Json.str "5"),
        ("md5Hash", Json.str "h"), ("metadata", Json.obj [("k", Json.str "v")]),
        ("foo", Json.str "bar")]) none
      = Except.ok ⟨Json.str "a", Json.str "5", Json.str "h",
          Json.obj [("name", Json.str "a"), ("size", Json.str "5"),
            ("md5Hash", Json.str "h"), ("metadata", Json.obj [("k", Json.str "v")]),
            ("foo", Json.str "bar")],
          Json.obj [("k", Json.str "v")], none⟩)
    ∧ (toObject (Json.obj [("name", Json.str "a")]) none
      = Except.error (PyErr.keyError "size")) :=
  ⟨by
    have h := (toObject_characterization [("name", Json.str "a"),
      ("size", Json.str "5"), ("md5Hash", Json.str "h"),
      ("metadata", Json.obj [("k", Json.str "v")]), ("foo", Json.str "bar")]
      none).2.2.2 (Json.str "a") (Json.str "5") (Json.str "h") rfl rfl rfl
    simpa [Json.getDefault, Json.lookupField, lookupKey] using h,
   (toObject_characterization [("name", Json.str "a")] none).2.1
     (Json.str "a") rfl rfl⟩

/-- Helper: mapping a list of items that all carry a `name` field
yields one `Container` per item, names in input order. -/
theorem toContainerList_all_named (items : List Json)
    (h : (items.all fun it => (it.lookupField "name").isSome) = true) :
    ∃ cs, toContainerList items = Except.ok cs
      ∧ cs.length = items.length
      ∧ cs.map Container.name
          = items.map (fun it => (it.lookupField "name").getD Json.null) := by
  induction items with
  | nil => exact ⟨[], rfl, rfl, rfl⟩
  | cons it rest ih =>
    simp only [List.all_cons, Bool.and_eq_true] at h
    obtain ⟨h1, h2⟩ := h
    obtain ⟨n, hn⟩ := Option.isSome_iff_exists.mp h1
    obtain ⟨cs, hcs, hlen, hnames⟩ := ih h2
    refine ⟨⟨n, it⟩ :: cs, ?_, ?_, ?_⟩
    · simp [toContainerList, toContainer, getItem_of_lookupField hn, hcs]
    · simp [hlen]
    · simp [hnames, hn]

/-- C8: `iterate_containers` issues a single `GET /b` with the
configured project id as its only query parameter, and on a success
response whose `items` hold `k` named bucket records (and no
continuation token) it returns exactly `k` `Container` values, names
matching the records in order, the pagination bag still `None`. -/
theorem iterate_containers_lists_all_items
    (d : GoogleStorageDriver) (s : DriverState) (resp : HttpResponse)
    (rest : List HttpResponse) (items : List Json)
    (hgcs : s.gcs = none)
    (hresp : s.responses = resp :: rest)
    (hok : isSuccess resp.status = true)
    (hitems : resp.object.lookupField "items" = some (Json.arr items))
    (hnames : (items.all fun it => (it.lookupField "name").isSome) = true)
    (hnotok : resp.object.lookupField "nextPageToken" = none) :
    ∃ cs, d.iterate_containers s
        = (Except.ok cs,
           ⟨none, rest,
            s.sent ++ [⟨"GET", "/b", [("project", d.project)], Json.null⟩], s.fs⟩)
      ∧ cs.length = items.length
      ∧ cs.map Container.name
          = items.map (fun it => (it.lookupField "name").getD Json.null) := by
  obtain ⟨cs, hcs, hlen, hnm⟩ := toContainerList_all_named items hnames
  refine ⟨cs, ?_, hlen, hnm⟩
  simp [GoogleStorageDriver.iterate_containers, andThen, connRequest, liftE, retM,
    hresp, hok, hgcs, preConnectHook, requestPostProcess, toContainers,
    getItem_of_lookupField hitems, hcs]

/-- Witness for C8: a two-bucket response evaluated concretely. -/
theorem iterate_containers_lists_all_items_witness :
    ∃ cs, GoogleStorageDriver.iterate_containers ⟨Json.str "proj"⟩
        (initState [⟨200, Json.obj [("items", Json.arr
          [Json.obj [("name", Json.str "b1")],
           Json.obj [("name", Json.str "b2")]])]⟩] [])
        = (Except.ok cs,
           ⟨none, [], [⟨"GET", "/b", [("project", Json.str "proj")], Json.null⟩], []⟩)
      ∧ cs.length = 2
      ∧ cs.map Container.name = [Json.str "b1", Json.str "b2"] :=
  iterate_containers_lists_all_items ⟨Json.str "proj"⟩
    (initState [⟨200, Json.obj [("items", Json.arr
      [Json.obj [("name", Json.str "b1")],
       Json.obj [("name", Json.str "b2")]])]⟩] [])
    ⟨200, Json.obj [("items", Json.arr
      [Json.obj [("name", Json.str "b1")],
       Json.obj [("name", Json.str "b2")]])]⟩
    [] [Json.obj [("name", Json.str "b1")], Json.obj [("name", Json.str "b2")]]
    rfl rfl rfl rfl rfl rfl

/-- Helper: a `connRequest` that returns a body consumed one scripted
success response, logged the request with the hook-merged parameters,
ran the pagination post-processing, and left the filesystem alone. -/
theorem connRequest_ok_state {path method : String}
    {params : List (String × Json)} {data : Json} {s : DriverState}
    {body : Json} {s₁ : DriverState}
    (h : connRequest path method params data s = (Except.ok body, s₁)) :
    s₁.gcs = requestPostProcess s.gcs body
    ∧ s₁.sent = s.sent ++ [⟨method, path, preConnectHook s.gcs params, data⟩]
    ∧ s₁.fs = s.fs
    ∧ ∃ st rest, s.responses = ⟨st, body⟩ :: rest ∧ s₁.responses = rest := by
  unfold connRequest at h
  cases hr : s.responses with
  | nil => rw [hr] at h; simp at h
  | cons resp rest =>
    rw [hr] at h
    dsimp only at h
    by_cases hs : isSuccess resp.status = true
    · rw [if_pos hs] at h
      injection h with h1 h2
      injection h1 with h1
      subst h1
      subst h2
      exact ⟨rfl, rfl, rfl, resp.status, rest, rfl, rfl⟩
    · rw [if_neg hs] at h
      simp at h

/-- Helper: a successful `get_container` run starting from an empty
pagination bag keeps the bag empty and logs exactly its one GET. -/
theorem get_container_ok_state {d : GoogleStorageDriver} {cn : String}
    {s : DriverState} {c : Container} {s₁ : DriverState}
    (hgcs : s.gcs = none)
    (h : d.get_container cn s = (Except.ok c, s₁)) :
    s₁.gcs = none
    ∧ s₁.sent = s.sent ++ [⟨"GET", "/b/" ++ cn, [], Json.null⟩]
    ∧ s₁.fs = s.fs := by
  unfold GoogleStorageDriver.get_container at h
  rcases hcr : connRequest ("/b/" ++ cn) "GET" [] Json.null s with ⟨r, s₂⟩
  simp only [andThen, hcr] at h
  cases r with
  | error e => simp at h
  | ok body =>
    cases htc : toContainer body with
    | error e => simp [liftE, htc, throwM] at h
    | ok c₂ =>
      simp only [liftE, htc, retM, containerTruthy, if_true] at h
      obtain ⟨h1, h2⟩ := Prod.mk.injEq .. ▸ h
      subst h2
      obtain ⟨hg, hsent, hfs, _⟩ := connRequest_ok_state hcr
      refine ⟨?_, ?_, hfs⟩
      · rw [hg, hgcs]; rfl
      · rw [hsent, hgcs]; rfl

/-- Helper: an object built by `_to_object` carries exactly the
container value that was passed in. -/
theorem toObject_container {item : Json} {cont : Option Container}
    {o : StorageObject} (h : toObject item cont = Except.ok o) :
    o.container = cont := by
  unfold toObject at h
  cases h1 : item.getItem "name" with
  | error e => rw [h1] at h; simp at h
  | ok n =>
    rw [h1] at h
    cases h2 : item.getItem "size" with
    | error e => rw [h2] at h; simp at h
    | ok sz =>
      rw [h2] at h
      cases h3 : item.getItem "md5Hash" with
      | error e => rw [h3] at h; simp at h
      | ok hh =>
        rw [h3] at h
        injection h with h4
        rw [← h4]

/-- C5: every successful `get_object` run starting from an empty
pagination bag first resolves the container with a `get_container`
call objn the same state, builds the returned `StorageObject` with
exactly that resolved container, and sends exactly the two requests
`GET /b/{container_name}` then `GET /b/{container_name}/o/{object_name}`
in that order. -/
theorem get_object_resolves_container_first
    (d : GoogleStorageDriver) (cn objn : String) (s s' : DriverState)
    (o : StorageObject)
    (hgcs : s.gcs = none)
    (h : d.get_object cn objn s = (Except.ok o, s')) :
    ∃ c s₁, d.get_container cn s = (Except.ok c, s₁)
      ∧ o.container = some c
      ∧ s₁.sent = s.sent ++ [⟨"GET", "/b/" ++ cn, [], Json.null⟩]
      ∧ s'.sent = s.sent ++ [⟨"GET", "/b/" ++ cn, [], Json.null⟩,
          ⟨"GET", "/b/" ++ cn ++ "/o/" ++ objn, [], Json.null⟩] := by
  unfold GoogleStorageDriver.get_object at h
  rcases hgc : d.get_container cn s with ⟨r, s₁⟩
  simp only [andThen, hgc] at h
  cases r with
  | error e => simp at h
  | ok c =>
    obtain ⟨h₁gcs, h₁sent, h₁fs⟩ := get_container_ok_state hgcs hgc
    rcases hcr : connRequest ("/b/" ++ cn ++ "/o/" ++ objn) "GET" [] Json.null s₁
      with ⟨r₂, s₂⟩
    simp only [hcr] at h
    cases r₂ with
    | error e => simp at h
    | ok body =>
      cases hto : toObject body (some c) with
      | error e => simp [liftE, hto, throwM] at h
      | ok o₂ =>
        simp only [liftE, hto, retM, objectIsNone, Bool.false_eq_true,
          if_false] at h
        obtain ⟨h1, h2⟩ := Prod.mk.injEq .. ▸ h
        subst h2
        injection h1 with h1
        obtain ⟨hg₂, hsent₂, hfs₂, _⟩ := connRequest_ok_state hcr
        refine ⟨c, s₁, rfl, ?_, h₁sent, ?_⟩
        · rw [← h1]; exact toObject_container hto
        · rw [hsent₂, h₁sent, h₁gcs]
          simp [preConnectHook]

/-- Witness for C5: a concrete two-response script, evaluated — the
container request precedes the object request and the returned object
holds the container resolved by `get_container`. -/
theorem get_object_resolves_container_first_witness :
    ∃ c s₁, GoogleStorageDriver.get_container ⟨Json.str "proj"⟩ "bucket"
        (initState [⟨200, Json.obj [("name", Json.str "bucket")]⟩,
          ⟨200, Json.obj [("name", Json.str "file"), ("size", Json.str "3"),
            ("md5Hash", Json.str "h")]⟩] [])
        = (Except.ok c, s₁)
      ∧ (⟨Json.str "file", Json.str "3", Json.str "h",
          Json.obj [("name", Json.str "file"), ("size", Json.str "3"),
            ("md5Hash", Json.str "h")],
          Json.obj [], some ⟨Json.str "bucket",
            Json.obj [("name", Json.str "bucket")]⟩⟩ : StorageObject).container
        = some c
      ∧ s₁.sent = [] ++ [⟨"GET", "/b/" ++ "bucket", [], Json.null⟩]
      ∧ (⟨none, [], [⟨"GET", "/b/bucket", [], Json.null⟩,
          ⟨"GET", "/b/bucket/o/file", [], Json.null⟩], []⟩ : DriverState).sent
        = [] ++ [⟨"GET", "/b/" ++ "bucket", [], Json.null⟩,
            ⟨"GET", "/b/" ++ "bucket" ++ "/o/" ++ "file", [], Json.null⟩] :=
  get_object_resolves_container_first ⟨Json.str "proj"⟩ "bucket" "file"
    (initState [⟨200, Json.obj [("name", Json.str "bucket")]⟩,
      ⟨200, Json.obj [("name", Json.str "file"), ("size", Json.str "3"),
        ("md5Hash", Json.str "h")]⟩] [])
    ⟨none, [], [⟨"GET", "/b/bucket", [], Json.null⟩,
      ⟨"GET", "/b/bucket/o/file", [], Json.null⟩], []⟩
    ⟨Json.str "file", Json.str "3", Json.str "h",
      Json.obj [("name", Json.str "file"), ("size", Json.str "3"),
        ("md5Hash", Json.str "h")],
      Json.obj [], some ⟨Json.str "bucket", Json.obj [("name", Json.str "bucket")]⟩⟩
    rfl rfl

/-- Invariant shape for C10: a computation that leaves an empty
pagination bag empty. -/
def KeepsGcsNone {α : Type} (m : DriverM α) : Prop :=
  ∀ s, s.gcs = none → ((m s).2).gcs = none

/-- Helper: returning keeps the bag. -/
theorem keepsGcsNone_retM {α : Type} (a : α) : KeepsGcsNone (retM a) :=
  fun _ h => h

/-- Helper: raising keeps the bag. -/
theorem keepsGcsNone_throwM {α : Type} (e : PyErr) :
    KeepsGcsNone (throwM e : DriverM α) :=
  fun _ h => h

/-- Helper: lifting a pure mapping keeps the bag. -/
theorem keepsGcsNone_liftE {α : Type} (e : Except PyErr α) :
    KeepsGcsNone (liftE e) := by
  cases e with
  | ok a => exact fun _ h => h
  | error e => exact fun _ h => h

/-- Helper: a branch keeps the bag when both arms do. -/
theorem keepsGcsNone_ite {α : Type} (c : Prop) [Decidable c]
    {m₁ m₂ : DriverM α} (h₁ : KeepsGcsNone m₁) (h₂ : KeepsGcsNone m₂) :
    KeepsGcsNone (if c then m₁ else m₂) := by
  by_cases hc : c
  · rw [if_pos hc]; exact h₁
  · rw [if_neg hc]; exact h₂

/-- Helper: one transport request keeps the bag — the post-processing
maps `None` to `None`, and a failure leaves the slot untouched. -/
theorem keepsGcsNone_connRequest (path method : String)
    (params : List (String × Json)) (data : Json) :
    KeepsGcsNone (connRequest path method params data) := by
  intro s h
  unfold connRequest
  cases hr : s.responses with
  | nil => exact h
  | cons resp rest =>
    dsimp only
    by_cases hs : isSuccess resp.status = true
    · rw [if_pos hs]
      rw [h]
      rfl
    · rw [if_neg hs]
      exact h

/-- Helper: sequencing keeps the bag when both parts do. -/
theorem keepsGcsNone_andThen {α β : Type} {m : DriverM α} {f : α → DriverM β}
    (hm : KeepsGcsNone m) (hf : ∀ a, KeepsGcsNone (f a)) :
    KeepsGcsNone (andThen m f) := by
  intro s h
  unfold andThen
  rcases hmr : m s with ⟨r, s₁⟩
  have h₁ : s₁.gcs = none := by
    have hrun := hm s h
    rw [hmr] at hrun
    exact hrun
  cases r with
  | ok a => exact hf a s₁ h₁
  | error e => exact h₁

/-- Helper: a request followed by a continuation that never touches the
request log appends exactly one entry to it, whatever the response
status — so such an operation sends exactly one HTTP request. -/
theorem andThen_connRequest_sent_length {α : Type} (path method : String)
    (params : List (String × Json)) (data : Json) (f : Json → DriverM α)
    (hf : ∀ a s, ((f a) s).2.sent = s.sent)
    (s : DriverState) (hne : s.responses ≠ []) :
    ((andThen (connRequest path method params data) f) s).2.sent.length
      = s.sent.length + 1 := by
  unfold andThen connRequest
  cases hr : s.responses with
  | nil => exact absurd hr hne
  | cons resp rest =>
    dsimp only
    by_cases hs : isSuccess resp.status = true
    · rw [if_pos hs]
      dsimp only
      rw [hf]
      simp
    · rw [if_neg hs]
      simp

/-- Helper: lifting a pure mapping leaves the whole state alone. -/
theorem liftE_state {α : Type} (e : Except PyErr α) (s : DriverState) :
    ((liftE e) s).2 = s := by
  cases e with
  | ok a => rfl
  | error e => rfl

/-- C10: the pagination bag protocol as the code actually realizes it:
`gcs_params` is `None` right after construction; `GCSConnection.request`
clears any non-empty bag back to `None`; `pre_connect_hook` merges
nothing when the bag is `None`; every driver operation preserves the
`None` bag (none of them ever assigns `gcs_params`); and each listing
operation issues exactly one HTTP request per call whenever the
transport answers at all. -/
theorem gcs_params_invariant (d : GoogleStorageDriver) :
    (∀ responses fs, (initState responses fs).gcs = none)
    ∧ (∀ bag respObj, bag ≠ [] → requestPostProcess (some bag) respObj = none)
    ∧ (∀ params, preConnectHook none params = params)
    ∧ (∀ cn, KeepsGcsNone (d.get_container cn))
    ∧ (∀ cn objn, KeepsGcsNone (d.get_object cn objn))
    ∧ KeepsGcsNone d.iterate_containers
    ∧ (∀ c, KeepsGcsNone (d.iterate_container_objects c))
    ∧ (∀ o, KeepsGcsNone (d.delete_object o))
    ∧ (∀ cn, KeepsGcsNone (d.create_container cn))
    ∧ (∀ c, KeepsGcsNone (d.delete_container c))
    ∧ (∀ o p oe df, KeepsGcsNone (d.download_object o p oe df))
    ∧ (∀ c s, s.responses ≠ [] →
        (d.iterate_containers s).2.sent.length = s.sent.length + 1
        ∧ (d.iterate_container_objects c s).2.sent.length = s.sent.length + 1) := by
  have hgc : ∀ cn, KeepsGcsNone (d.get_container cn) := by
    intro cn
    unfold GoogleStorageDriver.get_container
    exact keepsGcsNone_andThen (keepsGcsNone_connRequest _ _ _ _)
      (fun body => keepsGcsNone_andThen (keepsGcsNone_liftE _)
        (fun container => keepsGcsNone_ite _ (keepsGcsNone_retM _)
          (keepsGcsNone_throwM _)))
  refine ⟨fun _ _ => rfl, ?_, fun _ => rfl, hgc, ?_, ?_, ?_, ?_, ?_, ?_, ?_, ?_⟩
  · intro bag respObj hne
    unfold requestPostProcess
    dsimp only
    rw [if_neg (by simp [List.isEmpty_iff, hne])]
  · intro cn objn
    unfold GoogleStorageDriver.get_object
    exact keepsGcsNone_andThen (hgc cn)
      (fun c => keepsGcsNone_andThen (keepsGcsNone_connRequest _ _ _ _)
        (fun body => keepsGcsNone_andThen (keepsGcsNone_liftE _)
          (fun o => keepsGcsNone_ite _ (keepsGcsNone_throwM _)
            (keepsGcsNone_retM _))))
  · unfold GoogleStorageDriver.iterate_containers
    exact keepsGcsNone_andThen (keepsGcsNone_connRequest _ _ _ _)
      (fun body => keepsGcsNone_liftE _)
  · intro c
    unfold GoogleStorageDriver.iterate_container_objects
    exact keepsGcsNone_andThen (keepsGcsNone_connRequest _ _ _ _)
      (fun body => keepsGcsNone_liftE _)
  · intro o
    unfold GoogleStorageDriver.delete_object
    exact keepsGcsNone_andThen (keepsGcsNone_liftE _)
      (fun cn => keepsGcsNone_andThen (keepsGcsNone_connRequest _ _ _ _)
        (fun body => keepsGcsNone_retM _))
  · intro cn
    unfold GoogleStorageDriver.create_container
    exact keepsGcsNone_andThen (keepsGcsNone_connRequest _ _ _ _)
      (fun body => keepsGcsNone_liftE _)
  · intro c
    unfold GoogleStorageDriver.delete_container
    exact keepsGcsNone_andThen (keepsGcsNone_connRequest _ _ _ _)
      (fun body => keepsGcsNone_retM _)
  · intro o p oe df
    unfold GoogleStorageDriver.download_object
    exact keepsGcsNone_andThen (keepsGcsNone_liftE _)
      (fun cn => keepsGcsNone_andThen (keepsGcsNone_connRequest _ _ _ _)
        (fun body => keepsGcsNone_retM _))
  · intro c s hne
    constructor
    · unfold GoogleStorageDriver.iterate_containers
      exact andThen_connRequest_sent_length _ _ _ _ _
        (fun a s₀ => by rw [liftE_state]) s hne
    · unfold GoogleStorageDriver.iterate_container_objects
      exact andThen_connRequest_sent_length _ _ _ _ _
        (fun a s₀ => by rw [liftE_state]) s hne

/-- Witness for C10: the invariant evaluated concretely — a non-empty
bag is cleared by the request post-processing, a `get_container` call
leaves the bag `None`, and one listing call sends exactly one request. -/
theorem gcs_params_invariant_witness :
    (requestPostProcess (some [("pageToken", Json.str "T")]) (Json.obj []) = none)
    ∧ ((GoogleStorageDriver.get_container ⟨Json.str "p"⟩ "b"
        (initState [⟨200, Json.obj [("name", Json.str "b")]⟩] [])).2.gcs = none)
    ∧ ((GoogleStorageDriver.iterate_containers ⟨Json.str "p"⟩
        (initState [⟨200, Json.obj [("items", Json.arr [])]⟩] [])).2.sent.length
      = 1) :=
  ⟨(gcs_params_invariant ⟨Json.str "p"⟩).2.1 [("pageToken", Json.str "T")]
      (Json.obj []) (by simp),
   (gcs_params_invariant ⟨Json.str "p"⟩).2.2.2.1 "b"
      (initState [⟨200, Json.obj [("name", Json.str "b")]⟩] []) rfl,
   ((gcs_params_invariant ⟨Json.str "p"⟩).2.2.2.2.2.2.2.2.2.2.2
      ⟨Json.str "c", Json.obj []⟩
      (initState [⟨200, Json.obj [("items", Json.arr [])]⟩] [])
      (by simp [initState])).1⟩
